import Mathlib

/-!
Verification of the catalog loading and validation pipeline of the
streamflixx repository (src/src/hooks/useStreams.ts), embedded shallowly.

The embedding models:
  * JSON values (`Json`) as produced by `response.json()`;
  * JavaScript dynamic-typing details the filter callback relies on:
    `typeof` (`jsTypeof`) and property access (`getProp`), including the
    fact that `typeof null === "object"` while `null.title` throws a
    `TypeError`;
  * the filter callback of `loadStreams` (`checkStream`) and
    `Array.prototype.filter` with a possibly-throwing callback
    (`filterValid`);
  * one `loadStreams` cycle as the list of React state updates it issues
    (`loadUpdates`) together with the toasts it fires (`loadToasts`);
    the state hooks are modelled by folding the updates over the previous
    `CatalogState` (`applyUpdates` / `loadStreams`);
  * `refreshStreams` as the toast-then-load wrapper.
-/

/-- JSON values, the possible results of `response.json()`.  Numbers are
modelled as integers; no claim inspects numeric values, they only pass
through unchanged. -/
inductive Json where
  | null : Json
  | bool (b : Bool) : Json
  | num (n : Int) : Json
  | str (s : String) : Json
  | arr (elts : List Json) : Json
  | obj (fields : List (String × Json)) : Json

/-- JavaScript `typeof` on a JSON value.  Note `typeof null` and
`typeof []` are both `"object"`. -/
def jsTypeof : Json → String
  | .null => "object"
  | .bool _ => "boolean"
  | .num _ => "number"
  | .str _ => "string"
  | .arr _ => "object"
  | .obj _ => "object"

/-- Property access `j[k]` for the non-throwing cases: a field lookup on an
object, `undefined` (`none`) everywhere else.  (Accessing a property of a
string/number/boolean autoboxes and yields `undefined`; JSON arrays have no
string-keyed data properties named `title`/`image`/`stream`.)  Access on
`null` throws and is handled separately in `checkStream`. -/
def getProp : Json → String → Option Json
  | .obj fields, k => fields.lookup k
  | _, _ => none

/-- `typeof j[k] === "string"`, for a base value on which access does not
throw. -/
def isTextProp (j : Json) (k : String) : Bool :=
  match getProp j k with
  | some (.str _) => true
  | _ => false

/-- The body of the filter callback of `loadStreams` for a non-`null`
element:
`typeof stream === 'object' && typeof stream.title === 'string' &&
 typeof stream.image === 'string' && typeof stream.stream === 'string'`. -/
def checkB (j : Json) : Bool :=
  jsTypeof j == "object" && isTextProp j "title"
    && isTextProp j "image" && isTextProp j "stream"

/-- Classification of a failure thrown inside the `try` block, following the
spec's error taxonomy: `transport` for fetch rejections and non-OK statuses,
`format` for parse failures and the non-array shape check, `validation` for
the `TypeError` raised by the filter callback on a `null` element. -/
inductive ErrKind where
  | transport : ErrKind
  | format : ErrKind
  | validation : ErrKind
deriving DecidableEq, Repr

/-- A value thrown inside the `try` block: either an `Error` instance
carrying a message, or a non-`Error` value (possible for a fetch
rejection).  The kind records where in the pipeline it was thrown. -/
inductive JsThrown where
  | jsError (kind : ErrKind) (msg : String)
  | nonError (kind : ErrKind)
deriving DecidableEq, Repr

/-- `err instanceof Error ? err.message : 'Failed to load streams'`. -/
def caughtMsg : JsThrown → String
  | .jsError _ m => m
  | .nonError _ => "Failed to load streams"

/-- The failure kind of a thrown value. -/
def thrownKind : JsThrown → ErrKind
  | .jsError k _ => k
  | .nonError k => k

/-- The `TypeError` message raised by `null.title` (V8 wording; only the
fact that the filter throws on `null`, not the exact engine wording,
matters to the claims). -/
def nullAccessMsg : String := "Cannot read properties of null (reading 'title')"

/-- One evaluation of the filter callback.  `typeof null === "object"` is
true, so for a `null` element the callback proceeds to read `null.title`
and throws a `TypeError`; every other element yields a boolean. -/
def checkStream : Json → Except JsThrown Bool
  | .null => .error (.jsError .validation nullAccessMsg)
  | j => .ok (checkB j)

/-- `data.filter(callback)` with a callback that may throw: elements are
visited left to right and a throw aborts the whole filter. -/
def filterValid : List Json → Except JsThrown (List Json)
  | [] => .ok []
  | j :: rest =>
    match checkStream j with
    | .error e => .error e
    | .ok b =>
      match filterValid rest with
      | .error e => .error e
      | .ok v => .ok (if b then j :: v else v)

/-- Outcome of the fetch-and-parse prefix of a `loadStreams` cycle, the
loader's observation of the external Catalog Source. -/
inductive FetchOutcome where
  | netReject (msg : String) : FetchOutcome
  | netRejectNonError : FetchOutcome
  | notOk : FetchOutcome
  | parseFail (msg : String) : FetchOutcome
  | parsed (data : Json) : FetchOutcome

/-- The `try` block of `loadStreams` up to and including the filter: either
the list `validStreams`, or the value thrown.
  * a fetch rejection propagates the rejection value (kind transport);
  * `!response.ok` throws `new Error('Failed to load streams data')`;
  * a `response.json()` rejection propagates the parser's `SyntaxError`;
  * `!Array.isArray(data)` throws `new Error('Invalid streams data format')`;
  * otherwise the filter runs. -/
def tryValid : FetchOutcome → Except JsThrown (List Json)
  | .netReject m => .error (.jsError .transport m)
  | .netRejectNonError => .error (.nonError .transport)
  | .notOk => .error (.jsError .transport "Failed to load streams data")
  | .parseFail m => .error (.jsError .format m)
  | .parsed (.arr l) => filterValid l
  | .parsed _ => .error (.jsError .format "Invalid streams data format")

/-- The kind of the failure a cycle catches, `none` on success. -/
def failureKind (o : FetchOutcome) : Option ErrKind :=
  match tryValid o with
  | .error e => some (thrownKind e)
  | .ok _ => none

/-- One React state-setter call issued by the hook. -/
inductive Update where
  | setStreams (l : List Json)
  | setLoading (b : Bool)
  | setError (e : Option String)

/-- One toast notification. -/
structure Toast where
  title : String
  description : String
  destructive : Bool
deriving DecidableEq, Repr

/-- The "No Content" toast fired when zero entries pass validation. -/
def noContentToast : Toast :=
  ⟨"No Content", "No valid streams were found in the data file.", true⟩

/-- The "Loading Error" toast fired from the `catch` block. -/
def loadingErrorToast (m : String) : Toast := ⟨"Loading Error", m, true⟩

/-- The informational toast fired by `refreshStreams` before it loads. -/
def refreshingToast : Toast :=
  ⟨"Refreshing...", "Loading latest content from streams.json", false⟩

/-- The published loader state: `streams`, `loading`, `error`. -/
structure CatalogState where
  streams : List Json
  loading : Bool
  error : Option String

/-- Initial hook state: `useState([])`, `useState(true)`, `useState(null)`. -/
def initialState : CatalogState := ⟨[], true, none⟩

/-- Apply one state-setter call. -/
def applyUpdate (s : CatalogState) : Update → CatalogState
  | .setStreams l => { s with streams := l }
  | .setLoading b => { s with loading := b }
  | .setError e => { s with error := e }

/-- Apply the setter calls of a cycle in order. -/
def applyUpdates (s : CatalogState) (us : List Update) : CatalogState :=
  us.foldl applyUpdate s

/-- The ordered list of state-setter calls one `loadStreams` cycle issues:
`setLoading(true); setError(null)` first; then, on success,
`setStreams(validStreams)` followed by `setError('No valid streams found')`
when the list is empty, or, on a caught failure, `setError(message)`; and
finally `setLoading(false)` from the `finally` block. -/
def loadUpdates (o : FetchOutcome) : List Update :=
  [.setLoading true, .setError none] ++
    (match tryValid o with
      | .ok v =>
        .setStreams v ::
          (if v.isEmpty then [.setError (some "No valid streams found")] else [])
      | .error e => [.setError (some (caughtMsg e))]) ++
    [.setLoading false]

/-- The toasts one `loadStreams` cycle fires. -/
def loadToasts (o : FetchOutcome) : List Toast :=
  match tryValid o with
  | .ok v => if v.isEmpty then [noContentToast] else []
  | .error e => [loadingErrorToast (caughtMsg e)]

/-- The state after one `loadStreams` cycle starting from `prev`, when the
external fetch-and-parse steps observe `o`. -/
def loadStreams (prev : CatalogState) (o : FetchOutcome) : CatalogState :=
  applyUpdates prev (loadUpdates o)

/-- The toasts `refreshStreams` fires: the informational refresh toast,
then whatever the inner `loadStreams` cycle fires. -/
def refreshToasts (o : FetchOutcome) : List Toast :=
  refreshingToast :: loadToasts o

/-- The state effect of `refreshStreams`: it just invokes `loadStreams`. -/
def refreshStreams (prev : CatalogState) (o : FetchOutcome) : CatalogState :=
  loadStreams prev o

/-- Postcondition alternative (a): a non-empty catalog with no error. -/
def postNonEmptyOk (s : CatalogState) : Prop :=
  s.streams ≠ [] ∧ s.error = none

/-- Postcondition alternative (b): an empty catalog with the empty-result
message. -/
def postEmptyWarned (s : CatalogState) : Prop :=
  s.streams = [] ∧ s.error = some "No valid streams found"

/-- Postcondition alternative (c): the cycle caught a transport- or
format-kind failure and `error` holds its derived message. -/
def postHardError (o : FetchOutcome) (s : CatalogState) : Prop :=
  ∃ e, tryValid o = .error e ∧
    (thrownKind e = .transport ∨ thrownKind e = .format) ∧
    s.error = some (caughtMsg e)

/-- Example entries used in concrete instantiations. -/
def sampleEntry : Json :=
  .obj [("title", .str "A"), ("image", .str "a.jpg"), ("stream", .str "a.mp4")]

/-- A valid entry carrying an extra field beyond the three required ones. -/
def sampleEntryExtra : Json :=
  .obj [("title", .str "B"), ("image", .str "b.jpg"), ("stream", .str "b.mp4"),
        ("extra", .num 7)]

/-! ## Helper lemmas about one cycle -/

/-- A successful cycle ends with `streams` replaced by the valid list,
`loading` reset, and `error` set exactly when the valid list is empty. -/
theorem load_success_eq {o : FetchOutcome} {v : List Json}
    (h : tryValid o = .ok v) (prev : CatalogState) :
    loadStreams prev o =
      ⟨v, false, if v.isEmpty then some "No valid streams found" else none⟩ := by
  unfold loadStreams loadUpdates
  rw [h]
  cases hv : v.isEmpty <;>
    simp [hv, applyUpdates, applyUpdate]

/-- A failing cycle ends with `streams` untouched, `loading` reset, and
`error` holding the caught message. -/
theorem load_failure_eq {o : FetchOutcome} {e : JsThrown}
    (h : tryValid o = .error e) (prev : CatalogState) :
    loadStreams prev o = ⟨prev.streams, false, some (caughtMsg e)⟩ := by
  unfold loadStreams loadUpdates
  rw [h]
  simp [applyUpdates, applyUpdate]

/-- On a list with no `null` element the filter never throws and agrees
with the pure boolean filter. -/
theorem filterValid_of_no_null : ∀ {l : List Json}, (∀ j ∈ l, j ≠ Json.null) →
    filterValid l = .ok (l.filter checkB)
  | [], _ => rfl
  | j :: rest, h => by
    have hj : j ≠ Json.null := h j (List.mem_cons_self j rest)
    have hrest := filterValid_of_no_null
      (fun x hx => h x (List.mem_cons_of_mem j hx))
    have hcheck : checkStream j = .ok (checkB j) := by
      cases j <;> simp [checkStream] at hj ⊢
    rw [filterValid, hcheck, hrest]
    cases hb : checkB j <;> simp [List.filter_cons, hb]

/-- A filter that returns keeps a subsequence of its input: published
entries are original elements in their original order. -/
theorem filterValid_sublist : ∀ {l v : List Json},
    filterValid l = .ok v → v.Sublist l
  | [], v, h => by
    simp only [filterValid, Except.ok.injEq] at h
    simp [← h]
  | j :: rest, v, h => by
    rw [filterValid] at h
    cases hc : checkStream j with
    | error e => rw [hc] at h; exact absurd h (by simp)
    | ok b =>
      rw [hc] at h
      cases hr : filterValid rest with
      | error e => rw [hr] at h; exact absurd h (by simp)
      | ok v' =>
        rw [hr] at h
        have hsub : v'.Sublist rest := filterValid_sublist hr
        simp only [Except.ok.injEq] at h
        subst h
        cases b with
        | false => simpa using hsub.cons j
        | true => simpa using hsub.cons₂ j

/-- On a list of transport- and format-free data the only failure the
filter can throw is the `null` `TypeError`. -/
theorem filterValid_error_kind : ∀ {l : List Json} {e : JsThrown},
    filterValid l = .error e → e = .jsError .validation nullAccessMsg
  | [], e, h => by simp [filterValid] at h
  | j :: rest, e, h => by
    rw [filterValid] at h
    cases hc : checkStream j with
    | error e' =>
      rw [hc] at h
      have : e' = .jsError .validation nullAccessMsg := by
        cases j <;> simp_all [checkStream]
      simp only [Except.error.injEq] at h
      rw [← h, this]
    | ok b =>
      rw [hc] at h
      cases hr : filterValid rest with
      | error e' =>
        rw [hr] at h
        simp only [Except.error.injEq] at h
        rw [← h]
        exact filterValid_error_kind hr
      | ok v => rw [hr] at h; exact absurd h (by simp)

/-! ## Claim theorems -/

/-- Claim C1: for a response parsing to an array of objects, `loadStreams`
publishes exactly the elements satisfying the validity check, in their
original relative order, and sets the error to "No valid streams found"
exactly when none survives. -/
theorem load_publishes_valid_subset_in_order
    (prev : CatalogState) (l : List Json)
    (h : ∀ j ∈ l, ∃ f, j = Json.obj f) :
    (loadStreams prev (.parsed (.arr l))).streams = l.filter checkB ∧
    (l.filter checkB).Sublist l ∧
    ((loadStreams prev (.parsed (.arr l))).error = some "No valid streams found"
      ↔ l.filter checkB = []) ∧
    ((loadStreams prev (.parsed (.arr l))).error = none
      ↔ l.filter checkB ≠ []) := by
  have hnn : ∀ j ∈ l, j ≠ Json.null := by
    intro j hj
    obtain ⟨f, hf⟩ := h j hj
    subst hf
    intro hc
    exact Json.noConfusion hc
  have htv : tryValid (.parsed (.arr l)) = .ok (l.filter checkB) :=
    filterValid_of_no_null hnn
  rw [load_success_eq htv prev]
  refine ⟨rfl, List.filter_sublist l, ?_, ?_⟩ <;>
    · cases hv : l.filter checkB <;> simp [hv]

/-- Concrete instance of Claim C1: one valid object and one invalid object
yield exactly the valid one and no error. -/
theorem load_publishes_valid_subset_in_order_witness :
    (loadStreams initialState
        (.parsed (.arr [sampleEntry, Json.obj []]))).streams = [sampleEntry] ∧
    (loadStreams initialState
        (.parsed (.arr [sampleEntry, Json.obj []]))).error = none := by
  have h := load_publishes_valid_subset_in_order initialState
    [sampleEntry, Json.obj []]
    (by
      intro j hj
      simp only [List.mem_cons, List.not_mem_nil, or_false] at hj
      rcases hj with rfl | rfl
      · exact ⟨_, rfl⟩
      · exact ⟨_, rfl⟩)
  refine ⟨h.1.trans rfl, h.2.2.2.mpr ?_⟩
  intro hc
  exact List.noConfusion (hc.symm.trans rfl)

/-- Claim C2 (refuting instance): a cycle whose response is `[null]` ends in
none of the three advertised terminal states — the filter callback throws a
`TypeError` on the `null` element, so `error` holds a message of neither
transport nor format kind while the previous non-empty catalog stays
published. -/
theorem null_entry_escapes_trichotomy :
    ¬ (postNonEmptyOk
          (loadStreams ⟨[sampleEntry], false, none⟩ (.parsed (.arr [Json.null]))) ∨
       postEmptyWarned
          (loadStreams ⟨[sampleEntry], false, none⟩ (.parsed (.arr [Json.null]))) ∨
       postHardError (.parsed (.arr [Json.null]))
          (loadStreams ⟨[sampleEntry], false, none⟩ (.parsed (.arr [Json.null])))) := by
  have htv : tryValid (.parsed (.arr [Json.null])) =
      .error (.jsError .validation nullAccessMsg) := rfl
  have hstate := load_failure_eq htv ⟨[sampleEntry], false, none⟩
  rintro (⟨_, herr⟩ | ⟨hs, _⟩ | ⟨e, he, hk, _⟩)
  · rw [hstate] at herr
    exact Option.noConfusion herr
  · rw [hstate] at hs
    exact List.noConfusion hs
  · rw [htv] at he
    simp only [Except.error.injEq] at he
    rw [← he] at hk
    rcases hk with hk | hk <;> exact ErrKind.noConfusion hk

/-- Claim C3 (refuting instance): a `null` element is not dropped silently —
`typeof null === 'object'` passes the first conjunct of the filter callback,
`null.title` then throws, the whole cycle lands in the `catch` block, the
valid entry preceding it is discarded, and an error toast fires. -/
theorem null_entry_aborts_cycle :
    (loadStreams initialState (.parsed (.arr [sampleEntry, Json.null]))).streams
        = [] ∧
    (loadStreams initialState (.parsed (.arr [sampleEntry, Json.null]))).error
        = some nullAccessMsg ∧
    loadToasts (.parsed (.arr [sampleEntry, Json.null]))
        = [loadingErrorToast nullAccessMsg] :=
  ⟨rfl, rfl, rfl⟩

/-- Claim C4 (refuting instance): when the body fails to parse, the caught
failure is the parser's own `SyntaxError`, so `error` carries the parser's
message, not "Invalid streams data format". -/
theorem parse_failure_keeps_parser_message :
    (loadStreams initialState (.parseFail "Unexpected end of JSON input")).error
        = some "Unexpected end of JSON input" ∧
    (loadStreams initialState (.parseFail "Unexpected end of JSON input")).error
        ≠ some "Invalid streams data format" := by
  refine ⟨rfl, ?_⟩
  intro h
  have h' : "Unexpected end of JSON input" = "Invalid streams data format" := by
    have := (rfl :
      (loadStreams initialState (.parseFail "Unexpected end of JSON input")).error
        = some "Unexpected end of JSON input").symm.trans h
    exact Option.some.injEq _ _ ▸ this
  exact absurd h' (by decide)

/-- Claim C4 (amended): a parsed body that is not an array fails with kind
format and the message "Invalid streams data format"; a body that fails to
parse also fails with kind format but `error` carries the parser's own
message. -/
theorem format_failure_messages
    (prev : CatalogState) (d : Json) (h : ∀ l, d ≠ Json.arr l) (m : String) :
    (loadStreams prev (.parsed d)).error = some "Invalid streams data format" ∧
    failureKind (.parsed d) = some .format ∧
    (loadStreams prev (.parseFail m)).error = some m ∧
    failureKind (.parseFail m) = some .format := by
  have htv : tryValid (.parsed d) =
      .error (.jsError .format "Invalid streams data format") := by
    cases d with
    | arr l => exact absurd rfl (h l)
    | null => rfl
    | bool b => rfl
    | num n => rfl
    | str s => rfl
    | obj f => rfl
  refine ⟨?_, ?_, ?_, rfl⟩
  · rw [load_failure_eq htv prev]
    rfl
  · unfold failureKind
    rw [htv]
    rfl
  · rw [load_failure_eq (rfl :
      tryValid (.parseFail m) = .error (.jsError .format m)) prev]
    rfl

/-- Concrete instance of the amended Claim C4: the string body
`"not an array"` takes the format-error path with the fixed message. -/
theorem format_failure_messages_witness :
    (loadStreams initialState (.parsed (.str "not an array"))).error
      = some "Invalid streams data format" :=
  (format_failure_messages initialState (.str "not an array")
    (fun _ h => Json.noConfusion h) "x").1

/-- Claim C5: on every transport failure (fetch rejection or non-OK status)
the cycle catches a transport-kind failure, `error` carries either the
fallback "Failed to load streams" or the message of the failure the
transport step produced, a "Loading Error" toast fires, `loading` ends
false, and the previously published entries are untouched. -/
theorem transport_failure_behavior
    (prev : CatalogState) (o : FetchOutcome)
    (h : failureKind o = some .transport) :
    ∃ e, tryValid o = .error e ∧ thrownKind e = .transport ∧
      (loadStreams prev o).error = some (caughtMsg e) ∧
      (caughtMsg e = "Failed to load streams" ∨
        (∃ m, o = .netReject m ∧ caughtMsg e = m) ∨
        (o = .notOk ∧ caughtMsg e = "Failed to load streams data")) ∧
      loadToasts o = [loadingErrorToast (caughtMsg e)] ∧
      (loadStreams prev o).loading = false ∧
      (loadStreams prev o).streams = prev.streams := by
  cases o with
  | netReject m =>
    have htv : tryValid (.netReject m) = .error (.jsError .transport m) := rfl
    have hstate := load_failure_eq htv prev
    refine ⟨.jsError .transport m, htv, rfl, ?_, ?_, rfl, ?_, ?_⟩
    · rw [hstate]
    · exact Or.inr (Or.inl ⟨m, rfl, rfl⟩)
    · rw [hstate]
    · rw [hstate]
  | netRejectNonError =>
    have htv : tryValid .netRejectNonError = .error (.nonError .transport) := rfl
    have hstate := load_failure_eq htv prev
    refine ⟨.nonError .transport, htv, rfl, ?_, Or.inl rfl, rfl, ?_, ?_⟩
    · rw [hstate]
    · rw [hstate]
    · rw [hstate]
  | notOk =>
    have htv : tryValid .notOk =
        .error (.jsError .transport "Failed to load streams data") := rfl
    have hstate := load_failure_eq htv prev
    refine ⟨.jsError .transport "Failed to load streams data",
      htv, rfl, ?_, Or.inr (Or.inr ⟨rfl, rfl⟩), rfl, ?_, ?_⟩
    · rw [hstate]
    · rw [hstate]
    · rw [hstate]
  | parseFail m =>
    exact absurd h (by simp [failureKind, tryValid, thrownKind])
  | parsed d =>
    exfalso
    cases d with
    | arr l =>
      have htvf : tryValid (.parsed (.arr l)) = filterValid l := rfl
      cases htv : filterValid l with
      | ok v =>
        have h2 : failureKind (.parsed (.arr l)) = none := by
          unfold failureKind
          rw [htvf, htv]
        rw [h2] at h
        exact Option.noConfusion h
      | error e =>
        have h2 : failureKind (.parsed (.arr l)) = some (thrownKind e) := by
          unfold failureKind
          rw [htvf, htv]
        rw [h2, filterValid_error_kind htv] at h
        exact ErrKind.noConfusion (Option.some.inj h)
    | null => exact absurd h (by simp [failureKind, tryValid, thrownKind])
    | bool b => exact absurd h (by simp [failureKind, tryValid, thrownKind])
    | num n => exact absurd h (by simp [failureKind, tryValid, thrownKind])
    | str s => exact absurd h (by simp [failureKind, tryValid, thrownKind])
    | obj f => exact absurd h (by simp [failureKind, tryValid, thrownKind])

/-- Concrete instance of Claim C5: a fetch rejection with message
"network down" sets the error to that message and keeps the catalog. -/
theorem transport_failure_behavior_witness :
    (loadStreams ⟨[sampleEntry], false, none⟩ (.netReject "network down")).error
        = some "network down" ∧
    (loadStreams ⟨[sampleEntry], false, none⟩
        (.netReject "network down")).streams = [sampleEntry] ∧
    (loadStreams ⟨[sampleEntry], false, none⟩
        (.netReject "network down")).loading = false := by
  obtain ⟨e, he, -, herr, -, -, hload, hstreams⟩ :=
    transport_failure_behavior ⟨[sampleEntry], false, none⟩
      (.netReject "network down") rfl
  have he' : Except.error (JsThrown.jsError .transport "network down")
      = Except.error e := he
  injection he' with he''
  subst he''
  exact ⟨herr, hstreams, hload⟩

/-- Claim C6: a cycle that fails in the fetch or parse steps (transport- or
format-kind failure) leaves the published entries exactly as they were
before the cycle. -/
theorem failed_fetch_or_parse_preserves_entries
    (prev : CatalogState) (o : FetchOutcome)
    (h : failureKind o = some .transport ∨ failureKind o = some .format) :
    (loadStreams prev o).streams = prev.streams := by
  cases htv : tryValid o with
  | ok v =>
    exfalso
    have h2 : failureKind o = none := by
      unfold failureKind
      rw [htv]
    rw [h2] at h
    rcases h with h | h <;> exact Option.noConfusion h
  | error e =>
    rw [load_failure_eq htv prev]

/-- Concrete instance of Claim C6: a non-OK response status keeps the
previously published entry list. -/
theorem failed_fetch_or_parse_preserves_entries_witness :
    (loadStreams ⟨[sampleEntry], false, none⟩ .notOk).streams = [sampleEntry] :=
  failed_fetch_or_parse_preserves_entries ⟨[sampleEntry], false, none⟩ .notOk
    (Or.inl rfl)

/-- `setLoading` as the last setter call pins the final `loading` flag. -/
theorem applyUpdates_concat_setLoading
    (prev : CatalogState) (us : List Update) (b : Bool) :
    (applyUpdates prev (us ++ [.setLoading b])).loading = b := by
  unfold applyUpdates
  rw [List.foldl_append]
  rfl

/-- Claim C7: every cycle issues `setLoading(true)` then `setError(null)`
as its first two setter calls, issues `setLoading(false)` as its very last
setter call on every path, and consequently ends with `loading = false`. -/
theorem load_cycle_loading_discipline (prev : CatalogState) (o : FetchOutcome) :
    (loadUpdates o).take 2 = [.setLoading true, .setError none] ∧
    (loadUpdates o).getLast? = some (.setLoading false) ∧
    (loadStreams prev o).loading = false := by
  refine ⟨rfl, ?_, ?_⟩
  · unfold loadUpdates
    exact List.getLast?_concat _
  · unfold loadStreams loadUpdates
    exact applyUpdates_concat_setLoading prev _ false

/-- Claim C8: `refreshStreams` fires the informational refreshing toast and
then behaves exactly as `loadStreams`; with a stable successful source, two
back-to-back refreshes publish the same entries as a single load. -/
theorem refresh_wraps_load_and_is_idempotent
    (prev : CatalogState) (o : FetchOutcome) (v : List Json)
    (h : tryValid o = .ok v) :
    refreshToasts o = refreshingToast :: loadToasts o ∧
    refreshStreams prev o = loadStreams prev o ∧
    (refreshStreams (refreshStreams prev o) o).streams
      = (loadStreams prev o).streams := by
  refine ⟨rfl, rfl, ?_⟩
  unfold refreshStreams
  rw [load_success_eq h prev, load_success_eq h]

/-- Concrete instance of Claim C8: two refreshes on a one-entry catalog
publish the same list as one load. -/
theorem refresh_wraps_load_and_is_idempotent_witness :
    (refreshStreams (refreshStreams initialState
        (.parsed (.arr [sampleEntry]))) (.parsed (.arr [sampleEntry]))).streams
      = (loadStreams initialState (.parsed (.arr [sampleEntry]))).streams :=
  (refresh_wraps_load_and_is_idempotent initialState
    (.parsed (.arr [sampleEntry])) [sampleEntry] rfl).2.2

/-- Claim C9: a cycle that succeeds with zero valid entries clears any
previously published catalog to the empty list, sets the empty-result
error message, and fires the "No Content" toast. -/
theorem empty_valid_result_clears_entries
    (prev : CatalogState) (l : List Json) (h : filterValid l = .ok []) :
    (loadStreams prev (.parsed (.arr l))).streams = [] ∧
    (loadStreams prev (.parsed (.arr l))).error = some "No valid streams found" ∧
    loadToasts (.parsed (.arr l)) = [noContentToast] := by
  have htv : tryValid (.parsed (.arr l)) = .ok [] := h
  rw [load_success_eq htv prev]
  refine ⟨rfl, rfl, ?_⟩
  unfold loadToasts
  rw [htv]
  rfl

/-- Concrete instance of Claim C9: a response whose only element is invalid
replaces a previously non-empty catalog with the empty list. -/
theorem empty_valid_result_clears_entries_witness :
    (loadStreams ⟨[sampleEntry], false, none⟩
        (.parsed (.arr [Json.str "x"]))).streams = [] ∧
    (loadStreams ⟨[sampleEntry], false, none⟩
        (.parsed (.arr [Json.str "x"]))).error = some "No valid streams found" :=
  ⟨(empty_valid_result_clears_entries ⟨[sampleEntry], false, none⟩
      [Json.str "x"] rfl).1,
   (empty_valid_result_clears_entries ⟨[sampleEntry], false, none⟩
      [Json.str "x"] rfl).2.1⟩

/-- Claim C10: validation never transforms entries — whenever the filter
returns, the published list is exactly what the filter kept, a subsequence
of the response, and every published entry is one of the original response
elements, all of its fields included. -/
theorem published_entries_are_original_elements
    (prev : CatalogState) (l v : List Json) (h : filterValid l = .ok v) :
    (loadStreams prev (.parsed (.arr l))).streams = v ∧
    v.Sublist l ∧ ∀ j ∈ v, j ∈ l := by
  have htv : tryValid (.parsed (.arr l)) = .ok v := h
  have hsub := filterValid_sublist h
  rw [load_success_eq htv prev]
  exact ⟨rfl, hsub, fun j hj => hsub.subset hj⟩

/-- Concrete instance of Claim C10: an entry with an extra fourth field is
published verbatim, the extra field intact. -/
theorem published_entries_are_original_elements_witness :
    (loadStreams initialState
        (.parsed (.arr [sampleEntryExtra, Json.num 3]))).streams
      = [sampleEntryExtra] :=
  (published_entries_are_original_elements initialState
    [sampleEntryExtra, Json.num 3] [sampleEntryExtra] rfl).1
